import Mathlib

/-!
Verification of the HYDRA-SENTINEL authentication core.

This file gives a shallow embedding in Lean 4 of the token and identity
layer of the backend: password hashing and verification
(src/backend/services/auth_service.py), JWT issuance and verification,
the token-revocation blacklist (src/backend/database.py), the
authentication dependencies (src/backend/auth_deps.py and the local copy
in src/backend/routes/users.py), the admin guards
(src/backend/routes/admin.py and src/backend/routes/security.py), and
the register and logout route handlers (src/backend/routes/auth.py).

Modelling conventions:
  - time is a Nat counting seconds (datetime.utcnow is a parameter `now`);
  - the JWT library is PyJWT (the source does `import jwt` and uses the
    module-level encode/decode API). A token is modelled as either a
    payload signed with some secret, or structurally corrupt garbage;
    decoding with the right secret recovers the payload and checks the
    exp claim. The except clause of verify_token catches
    jwt.ExpiredSignatureError, but its second clause names jwt.JWTError,
    an attribute PyJWT does not define, so on any non-expiry decode
    failure evaluating that clause raises AttributeError, which
    propagates to the caller; only expiry yields the None sentinel;
  - bcrypt is modelled at the byte level of its contract: the password
    is encoded to UTF-8 and only its first 72 bytes enter the digest
    (bcrypt truncation); a password containing a NUL byte makes hashpw
    and checkpw raise ValueError; the digest over those 72 bytes is
    idealised as collision-free; a stored hash value is either a
    well-formed bcrypt hash carrying its salt and digest, or a
    malformed string, on which checkpw raises ValueError;
  - database.py line 198 computes the blacklist expiry from
    REFRESH_TOKEN_EXPIRE_DAYS, a name defined only in auth_service.py
    and never imported into database.py, so every add_to_blacklist call
    raises NameError before the insert; the bare except catches it and
    the function returns normally with the collection unchanged;
  - auth_deps.get_current_user is a sync def that calls the async
    Database.is_blacklisted without await: the call returns a coroutine
    object, and the truthiness the if-condition evaluates is that of
    the coroutine object itself, which is constantly true;
  - the register route receives its email through pydantic EmailStr
    (models/user.py, UserCreate), whose validator returns the address
    with the domain part lowercased and the local part case preserved;
  - the MongoDB collections are association lists; the unique index on
    users.email (database.py line 344, default binary collation) makes
    insertion fail on an exact duplicate email; the TTL index on
    token_blacklist.expires_at removes a document once its expires_at
    has passed, idealised as immediate removal at expiry;
  - a raised Python exception that escapes a function is an error value
    of an Except type; a caught exception follows the except-branch of
    the code;
  - Python dict truthiness is modelled explicitly: the payload check
    `if not payload` fails for None and for an empty dict, and the jti
    check `if not jti` fails for a missing jti and for the empty
    string.
-/

namespace HydraSentinel

/-- Seconds in `n` days, mirroring timedelta(days = n). -/
def days (n : Nat) : Nat := n * 86400

/-- Seconds in `n` minutes, mirroring timedelta(minutes = n). -/
def minutes (n : Nat) : Nat := n * 60

/-- auth_service.py line 17: ACCESS_TOKEN_EXPIRE_MINUTES = 30. -/
def ACCESS_TOKEN_EXPIRE_MINUTES : Nat := 30

/-- auth_service.py line 18: REFRESH_TOKEN_EXPIRE_DAYS = 7. This name
lives in auth_service.py only; database.py line 198 references it
without importing it. -/
def REFRESH_TOKEN_EXPIRE_DAYS : Nat := 7

/-- auth_service.py line 19: PASSWORD_RESET_TOKEN_EXPIRE_MINUTES = 15. -/
def PASSWORD_RESET_TOKEN_EXPIRE_MINUTES : Nat := 15

/-- The UTF-8 encoding of one character as code-point bytes
(RFC 3629). -/
def utf8EncodeCharNat (c : Char) : List Nat :=
  let n := c.toNat
  if n < 128 then [n]
  else if n < 2048 then [192 + n / 64, 128 + n % 64]
  else if n < 65536 then [224 + n / 4096, 128 + (n / 64) % 64, 128 + n % 64]
  else [240 + n / 262144, 128 + (n / 4096) % 64, 128 + (n / 64) % 64, 128 + n % 64]

/-- The UTF-8 bytes of a string, as Python's str.encode produces them;
bcrypt operates on these bytes. -/
def utf8Bytes (s : String) : List Nat := s.data.flatMap utf8EncodeCharNat

/-- ASCII lowercasing of one character; non-letters are unchanged. -/
def lowercaseAsciiChar (c : Char) : Char :=
  if 65 ≤ c.toNat ∧ c.toNat ≤ 90 then Char.ofNat (c.toNat + 32) else c

/-- The boundary normalization pydantic EmailStr applies to a submitted
address (models/user.py, UserCreate.email; routes/auth.py line 29): the
email-validator library returns the address with the domain part
lowercased and the local part case preserved. Modelled for ASCII
addresses: everything from the first at-sign on is lowercased, the
local part before it is kept. -/
def emailStrNormalize (email : String) : String :=
  let local_part := email.data.takeWhile (fun c => c ≠ '@')
  let rest := email.data.dropWhile (fun c => c ≠ '@')
  String.mk (local_part ++ rest.map lowercaseAsciiChar)

/-- ASCII case folding of one character, as a code point. Used only to
state case-insensitive equality of emails. -/
def asciiLowerNat (c : Char) : Nat :=
  if 65 ≤ c.toNat ∧ c.toNat ≤ 90 then c.toNat + 32 else c.toNat

/-- The case-folded code points of a string: two strings are equal up
to ASCII letter case exactly when their caseFold lists are equal. -/
def caseFold (s : String) : List Nat := s.data.map asciiLowerNat

/-- A decoded JWT claim dictionary. The code only ever reads the keys
user_id, email, exp, type and jti, so the dict is modelled as a record
of those optional fields. -/
structure Payload where
  user_id : Option String := none
  email : Option String := none
  exp : Option Nat := none
  type : Option String := none
  jti : Option String := none
deriving Repr, DecidableEq

/-- Python truthiness of the payload dict: `not payload` is true for an
empty dict (all keys absent). -/
def Payload.isEmptyDict (p : Payload) : Bool :=
  p.user_id.isNone && p.email.isNone && p.exp.isNone && p.type.isNone && p.jti.isNone

/-- A JWT as handed to clients: either a payload signed with a secret
(structurally valid), or garbage that fails structural decoding. -/
inductive Jwt where
  | signed (payload : Payload) (secret : String)
  | garbage (raw : String)
deriving Repr, DecidableEq

/-- Errors raised by jwt.decode. -/
inductive JwtError where
  | expiredSignature
  | invalidSignature
  | decodeError
deriving Repr, DecidableEq

/-- Model of jwt.decode(token, secret, algorithms): structural decoding,
signature check against the shared secret, then expiry check of the exp
claim against the current time (PyJWT rejects once exp ≤ now). -/
def jwtDecode (secret : String) (now : Nat) (t : Jwt) : Except JwtError Payload :=
  match t with
  | .garbage _ => .error .decodeError
  | .signed p s =>
    if s ≠ secret then .error .invalidSignature
    else
      match p.exp with
      | some e => if e ≤ now then .error .expiredSignature else .ok p
      | none => .ok p

/-- A stored password-hash value. bcrypt hash strings are classified by
whether bcrypt can parse them: a well-formed hash carries its salt and
the digest bytes, anything else is malformed. -/
inductive StoredHash where
  | bcrypt (salt : Nat) (digest : List Nat)
  | malformed (raw : String)
deriving Repr, DecidableEq

/-- The bytes of the password that actually enter the bcrypt digest:
bcrypt uses only the first 72 bytes of the UTF-8 encoding. The digest
over those bytes is idealised as collision-free (the claimed
overwhelming probability made exact), so the truncated byte list itself
stands for the digest. -/
def bcryptDigest (password : String) : List Nat :=
  (utf8Bytes password).take 72

/-- bcrypt.hashpw(password, gensalt()): the fresh random salt is a
parameter; a password containing a NUL byte raises ValueError. -/
def bcryptHashpw (password : String) (salt : Nat) : Except String StoredHash :=
  if (utf8Bytes password).contains 0 then .error "password may not contain NUL bytes"
  else .ok (.bcrypt salt (bcryptDigest password))

/-- bcrypt.checkpw(password, hashed): raises ValueError on a NUL byte
in the password or on a stored hash that does not parse as a bcrypt
hash; otherwise recomputes the digest under the stored salt and
compares. -/
def bcryptCheckpw (password : String) (hashed : StoredHash) : Except String Bool :=
  if (utf8Bytes password).contains 0 then .error "password may not contain NUL bytes"
  else
    match hashed with
    | .bcrypt _ digest => .ok (digest == bcryptDigest password)
    | .malformed _ => .error "Invalid salt"

namespace AuthService

/-- auth_service.py lines 26-31, AuthService.hash_password: hash the
password with bcrypt under a fresh salt; the bcrypt ValueError on NUL
bytes propagates (no handler). -/
def hash_password (password : String) (salt : Nat) : Except String StoredHash :=
  bcryptHashpw password salt

/-- auth_service.py lines 33-36, AuthService.verify_password: a direct
call to bcrypt.checkpw with no exception handling, so a bcrypt
ValueError propagates to the caller. -/
def verify_password (password : String) (hashed : StoredHash) : Except String Bool :=
  bcryptCheckpw password hashed

/-- auth_service.py lines 38-53, AuthService.create_access_token: copy
the claims, add exp = now + 30 minutes (or the supplied delta), type =
access and a freshly generated uuid4 jti (the uuid is a parameter), and
sign with the shared secret. -/
def create_access_token (secret : String) (data : Payload) (now : Nat)
    (expires_delta : Option Nat) (uuid : String) : Jwt :=
  let expire := now + expires_delta.getD (minutes ACCESS_TOKEN_EXPIRE_MINUTES)
  .signed { data with exp := some expire, type := some "access", jti := some uuid } secret

/-- auth_service.py lines 55-62, AuthService.create_refresh_token: copy
the claims, add exp = now + 7 days and type = refresh (no jti), and sign
with the shared secret. -/
def create_refresh_token (secret : String) (data : Payload) (now : Nat) : Jwt :=
  .signed { data with exp := some (now + days REFRESH_TOKEN_EXPIRE_DAYS),
                      type := some "refresh" } secret

/-- auth_service.py lines 80-91, AuthService.verify_token: jwt.decode
under the shared secret inside a try block whose first clause catches
jwt.ExpiredSignatureError and returns None. The second clause names
jwt.JWTError, which PyJWT does not define, so when decode raises any
other error (bad signature, structural corruption) evaluating that
clause raises AttributeError, which propagates to the caller. -/
def verify_token (secret : String) (now : Nat) (t : Jwt) :
    Except String (Option Payload) :=
  match jwtDecode secret now t with
  | .ok payload => .ok (some payload)
  | .error .expiredSignature => .ok none
  | .error _ => .error "AttributeError: module jwt has no attribute JWTError"

end AuthService

/-- An HTTP error response raised as fastapi.HTTPException. -/
structure HTTPError where
  status_code : Nat
  detail : String
deriving Repr, DecidableEq

/-- The outcome of a failing dependency: either an HTTPException
carried to the client, or an uncaught Python exception (surfaced by
the framework as an internal error). -/
inductive PyExc where
  | http (e : HTTPError)
  | attributeError (msg : String)
deriving Repr, DecidableEq

/-- One document of the token_blacklist collection
(database.py line 199: insert_one of jti and expires_at). -/
structure BlacklistEntry where
  jti : String
  expires_at : Nat
deriving Repr, DecidableEq

/-- The token_blacklist collection. -/
abbrev BlacklistDb := List BlacklistEntry

/-- The documents of the blacklist visible to find_one at time now: the
TTL index on expires_at (database.py lines 360-362) removes a document
once its expires_at has passed, idealised as immediate removal. -/
def visibleBlacklist (s : BlacklistDb) (now : Nat) : List BlacklistEntry :=
  s.filter (fun e => now < e.expires_at)

namespace Database

/-- database.py lines 194-201, Database.add_to_blacklist: the body
computes the expiry as utcnow + timedelta(days = REFRESH_TOKEN_EXPIRE_DAYS
+ 1), but REFRESH_TOKEN_EXPIRE_DAYS is defined only in auth_service.py
and never imported into database.py, so every call raises NameError
before reaching insert_one; the bare except Exception catches and logs
it and the function returns normally. The collection is never
modified. -/
def add_to_blacklist (s : BlacklistDb) (_now : Nat) (_jti : String) : BlacklistDb :=
  s

/-- database.py lines 203-209, Database.is_blacklisted: find_one on the
jti, true when a (non-TTL-expired) document exists; any store error is
caught and the function returns True (the fail-safe branch). `healthy`
is whether the query round-trip succeeds. -/
def is_blacklisted (s : BlacklistDb) (now : Nat) (jti : String)
    (healthy : Bool) : Bool :=
  if healthy then
    (visibleBlacklist s now).any (fun e => e.jti == jti)
  else true

end Database

/-- auth_deps.py line 20 calls the async Database.is_blacklisted from a
sync def without await: the call returns a coroutine object (the query
never runs), and the truthiness Python evaluates in the if-condition is
that of the coroutine object itself, which is true regardless of the
boolean the query would have produced. -/
def unawaitedCoroutineTruthy (_jti : String) : Bool := true

namespace AuthDeps

/-- auth_deps.py lines 8-26, get_current_user: a sync def. It runs
verify_token (propagating the AttributeError on non-expiry decode
failures); 401 invalid when the payload is falsy; then 401 revoked when
the jti is missing or empty, or when the condition
`db.is_blacklisted(jti)` is truthy — which, the coroutine being
unawaited, it always is, so the final return of the payload is dead
code and every jti-carrying token is rejected. -/
def get_current_user (secret : String) (now : Nat) (token : Jwt) :
    Except PyExc Payload :=
  match AuthService.verify_token secret now token with
  | .error msg => .error (.attributeError msg)
  | .ok none => .error (.http ⟨401, "Invalid or expired token"⟩)
  | .ok (some payload) =>
    if payload.isEmptyDict then .error (.http ⟨401, "Invalid or expired token"⟩)
    else
      match payload.jti with
      | none => .error (.http ⟨401, "Token has been revoked"⟩)
      | some jti =>
        if jti == "" then .error (.http ⟨401, "Token has been revoked"⟩)
        else if unawaitedCoroutineTruthy jti then
          .error (.http ⟨401, "Token has been revoked"⟩)
        else .ok payload

end AuthDeps

namespace UsersRoutes

/-- routes/users.py lines 15-24, the local get_current_user used by the
users router: verify the bearer token and return the payload; there is
no blacklist consultation in this dependency. A non-expiry decode
failure propagates as the AttributeError from verify_token. -/
def get_current_user (secret : String) (now : Nat) (token : Jwt) :
    Except PyExc Payload :=
  match AuthService.verify_token secret now token with
  | .error msg => .error (.attributeError msg)
  | .ok none => .error (.http ⟨401, "Invalid or expired token"⟩)
  | .ok (some payload) =>
    if payload.isEmptyDict then .error (.http ⟨401, "Invalid or expired token"⟩)
    else .ok payload

end UsersRoutes

/-- One document of the users collection, with the fields the auth core
reads. A missing role key is role = none (user.get reads it with or
without a default depending on the call site). -/
structure UserDoc where
  _id : String
  email : String
  password : Option StoredHash := none
  name : String := ""
  subscription : String := "Basic"
  is_active : Bool := true
  role : Option String := none
  google_id : Option String := none
deriving Repr, DecidableEq

/-- The users collection. -/
abbrev UsersDb := List UserDoc

namespace Database

/-- database.py find_one("users", filter on _id): first document whose
_id matches. -/
def find_user_by_id (users : UsersDb) (uid : String) : Option UserDoc :=
  users.find? (fun u => u._id == uid)

/-- database.py lines 227-229, Database.find_user_by_email: find_one on
an exact (binary, case-sensitive) email match. -/
def find_user_by_email (users : UsersDb) (email : String) : Option UserDoc :=
  users.find? (fun u => u.email == email)

/-- database.py lines 212-225, Database.create_user: insert the user
document; the unique index on email (database.py line 344, default
binary collation, hence exact case-sensitive comparison) raises
DuplicateKeyError on an exact duplicate, which is caught and turned
into None. Returns the new collection state and the created id (None on
failure). -/
def create_user (users : UsersDb) (doc : UserDoc) : UsersDb × Option String :=
  if users.any (fun u => u.email == doc.email) then (users, none)
  else (users ++ [doc], some doc._id)

end Database

namespace AdminRoutes

/-- routes/admin.py lines 18-35, verify_admin_access: look the account
up by the token payload user_id key (a missing key raises KeyError,
which the surrounding route handler converts to a 500); 404 when no
account exists; 403 unless user.get("role", "user") is admin or
super_admin; otherwise return the account. -/
def verify_admin_access (users : UsersDb) (token_payload : Payload) :
    Except HTTPError UserDoc :=
  match token_payload.user_id with
  | none => .error ⟨500, "KeyError: user_id"⟩
  | some uid =>
    match Database.find_user_by_id users uid with
    | none => .error ⟨404, "User not found"⟩
    | some user =>
      let user_role := user.role.getD "user"
      if user_role == "admin" || user_role == "super_admin" then .ok user
      else .error ⟨403, "Admin access required"⟩

end AdminRoutes

namespace SecurityRoutes

/-- routes/security.py lines 10-17, verify_admin_user: look the account
up by token_payload.get("user_id"); 403 when no account is found or
when user.get("role") is not exactly the string admin; otherwise return
the account. -/
def verify_admin_user (users : UsersDb) (token_payload : Payload) :
    Except HTTPError UserDoc :=
  let user? :=
    match token_payload.user_id with
    | none => none
    | some uid => Database.find_user_by_id users uid
  match user? with
  | none => .error ⟨403, "Admin privileges are required for this action."⟩
  | some user =>
    if user.role == some "admin" then .ok user
    else .error ⟨403, "Admin privileges are required for this action."⟩

end SecurityRoutes

namespace AuthRoutes

/-- The body returned by the register endpoint on success: the created
account id plus a fresh access and refresh token. -/
structure RegisterResponse where
  user_id : String
  access_token : Jwt
  refresh_token : Jwt
deriving Repr, DecidableEq

/-- routes/auth.py lines 28-90, register: the handler sees the email
already normalized by pydantic EmailStr (domain lowercased, local part
preserved). It rejects 400 already-registered when find_user_by_email
finds an exact match on the normalized email; hashes the password (a
bcrypt ValueError is caught by the generic handler as a 500); inserts
the user document (500 when create_user reports failure); and mints an
access and a refresh token for the new account. The fresh salt, the
generated document id and the fresh jti uuid are parameters. -/
def register (users : UsersDb) (secret : String) (now : Nat)
    (email password name : String) (subscription : String)
    (salt : Nat) (new_id : String) (uuid : String) :
    UsersDb × Except HTTPError RegisterResponse :=
  let email := emailStrNormalize email
  match Database.find_user_by_email users email with
  | some _ => (users, .error ⟨400, "Email already registered"⟩)
  | none =>
    match AuthService.hash_password password salt with
    | .error _ => (users, .error ⟨500, "Registration failed"⟩)
    | .ok hashed =>
      let doc : UserDoc :=
        { _id := new_id, email := email, password := some hashed,
          name := name, subscription := subscription, is_active := true }
      match Database.create_user users doc with
      | (users2, none) => (users2, .error ⟨500, "Failed to create user"⟩)
      | (users2, some user_id) =>
        let token_data : Payload := { user_id := some user_id, email := some email }
        let access := AuthService.create_access_token secret token_data now none uuid
        let refresh := AuthService.create_refresh_token secret token_data now
        (users2, .ok ⟨user_id, access, refresh⟩)

/-- routes/auth.py lines 330-348, logout: the payload has already passed
get_current_user; a falsy jti raises a 400 inside the try block, which
the bare except-Exception clause converts to a 500 Logout failed; an
honest jti is handed to add_to_blacklist, which never raises (it
swallows its NameError internally) and never modifies the store, and
the endpoint reports success unconditionally afterwards. Returns the
blacklist state and the response. -/
def logout (s : BlacklistDb) (token_payload : Payload) (now : Nat) :
    BlacklistDb × Except HTTPError String :=
  match token_payload.jti with
  | none => (s, .error ⟨500, "Logout failed"⟩)
  | some jti =>
    if jti == "" then (s, .error ⟨500, "Logout failed"⟩)
    else (Database.add_to_blacklist s now jti, .ok "Successfully logged out")

end AuthRoutes

/-! Theorems settling the claims. -/

/-- Claim C1: code bug. Revocation via logout is impossible in the
program and not enforced at every entry point: add_to_blacklist never
records anything (its NameError is swallowed), the blacklist-checking
dependency 401-rejects every jti-carrying token — valid or revoked —
because the is_blacklisted coroutine is never awaited (making the
logout handler unreachable), and the users-router dependency performs
no revocation check at all, so it admits a token no matter what the
blacklist holds. The repository spec and tests/test_auth_deps.py both
demand the claimed behavior. -/
theorem claim_C1 :
    (∀ (s : BlacklistDb) (now : Nat) (jti : String),
      Database.add_to_blacklist s now jti = s) ∧
    AuthDeps.get_current_user "sec" 100
      (.signed { user_id := some "u1", email := some "a@x.com", exp := some 2000,
                 type := some "access", jti := some "J" } "sec")
      = .error (.http ⟨401, "Token has been revoked"⟩) ∧
    UsersRoutes.get_current_user "sec" 100
      (.signed { user_id := some "u1", email := some "a@x.com", exp := some 2000,
                 type := some "access", jti := some "J" } "sec")
      = .ok { user_id := some "u1", email := some "a@x.com", exp := some 2000,
              type := some "access", jti := some "J" } :=
  ⟨fun _ _ _ => rfl, rfl, rfl⟩

/-- Claim C2: code bug. A signature-valid, unexpired access token
carrying a jti that no revocation entry matches is nonetheless rejected
401 Token has been revoked by auth_deps.get_current_user: the sync
dependency calls the async is_blacklisted without await, and the
coroutine object is always truthy, so the admit path proved impossible
here is exactly the path the repository tests
(tests/test_auth_deps.py) assert. -/
theorem claim_C2 :
    AuthService.verify_token "sec" 100
      (.signed { user_id := some "u1", email := some "a@x.com", exp := some 2000,
                 type := some "access", jti := some "J" } "sec")
      = .ok (some { user_id := some "u1", email := some "a@x.com", exp := some 2000,
                    type := some "access", jti := some "J" }) ∧
    AuthDeps.get_current_user "sec" 100
      (.signed { user_id := some "u1", email := some "a@x.com", exp := some 2000,
                 type := some "access", jti := some "J" } "sec")
      = .error (.http ⟨401, "Token has been revoked"⟩) :=
  ⟨rfl, rfl⟩

/-- Claim C3: code bug. A revoke call inserts nothing — database.py
line 198 raises NameError on the never-imported REFRESH_TOKEN_EXPIRE_DAYS
and the bare except swallows it — so immediately after revoking jti J
on an empty store, is_blacklisted still reports false, contradicting
the claim that is_revoked is true from the revoke until the recorded
expiry. -/
theorem claim_C3 :
    Database.add_to_blacklist [] 0 "J" = [] ∧
    Database.is_blacklisted (Database.add_to_blacklist [] 0 "J") 1 "J" true = false :=
  ⟨rfl, rfl⟩

/-- Claim C4: is_blacklisted fails closed — whenever the blacklist query
raises (the store round-trip is unhealthy), the function returns true
and the token is treated as revoked, for every jti and store state. -/
theorem claim_C4 (s : BlacklistDb) (now : Nat) (jti : String) :
    Database.is_blacklisted s now jti false = true := rfl

/-- Claim C5 counterexample: verify_token applied to a structurally
corrupt token raises (the except clause references the nonexistent
jwt.JWTError, so AttributeError propagates) instead of returning the
None sentinel, and verify_password applied to a malformed stored hash
propagates the bcrypt ValueError instead of returning false. -/
theorem claim_C5_counterexample :
    AuthService.verify_token "sec" 100 (.garbage "zzz")
      = .error "AttributeError: module jwt has no attribute JWTError" ∧
    AuthService.verify_password "secret123" (StoredHash.malformed "not-a-bcrypt-hash")
      = .error "Invalid salt" := ⟨rfl, rfl⟩

/-- Claim C5 amended: verify_token returns the None sentinel only on an
expired signature; on a signature mismatch or structural corruption the
except clause itself raises AttributeError, which propagates to the
caller. verify_password, for a password without NUL bytes, returns
false on any mismatch against a well-formed stored hash, but on a
malformed stored hash it raises the bcrypt ValueError rather than
returning false. -/
theorem claim_C5_amended :
    (∀ (secret : String) (now e : Nat) (p : Payload), p.exp = some e → e ≤ now →
      AuthService.verify_token secret now (.signed p secret) = .ok none) ∧
    (∀ (secret raw : String) (now : Nat),
      AuthService.verify_token secret now (.garbage raw)
        = .error "AttributeError: module jwt has no attribute JWTError") ∧
    (∀ (secret s2 : String) (now : Nat) (p : Payload), s2 ≠ secret →
      AuthService.verify_token secret now (.signed p s2)
        = .error "AttributeError: module jwt has no attribute JWTError") ∧
    (∀ (password : String) (salt : Nat) (digest : List Nat),
      (utf8Bytes password).contains 0 = false →
      AuthService.verify_password password (.bcrypt salt digest)
        = .ok (digest == bcryptDigest password)) ∧
    (∀ (password raw : String), (utf8Bytes password).contains 0 = false →
      AuthService.verify_password password (.malformed raw) = .error "Invalid salt") := by
  refine ⟨?_, ?_, ?_, ?_, ?_⟩
  · intro secret now e p hexp hle
    simp [AuthService.verify_token, jwtDecode, hexp, hle]
  · intro secret raw now
    simp [AuthService.verify_token, jwtDecode]
  · intro secret s2 now p hne
    simp [AuthService.verify_token, jwtDecode, hne]
  · intro password salt digest hz
    have hz2 : 0 ∉ utf8Bytes password := by simpa using hz
    simp [AuthService.verify_password, bcryptCheckpw, hz2]
  · intro password raw hz
    have hz2 : 0 ∉ utf8Bytes password := by simpa using hz
    simp [AuthService.verify_password, bcryptCheckpw, hz2]

/-- Witness for the amended claim C5 at concrete inputs. -/
theorem claim_C5_amended_witness :
    AuthService.verify_token "sec" 100
      (.signed { user_id := some "u1", exp := some 50 } "sec") = .ok none ∧
    AuthService.verify_token "sec" 100 (.garbage "zzz")
      = .error "AttributeError: module jwt has no attribute JWTError" ∧
    AuthService.verify_token "sec" 100 (.signed { user_id := some "u1" } "othersecret")
      = .error "AttributeError: module jwt has no attribute JWTError" ∧
    AuthService.verify_password "pw" (.bcrypt 3 (bcryptDigest "pw"))
      = .ok (bcryptDigest "pw" == bcryptDigest "pw") ∧
    AuthService.verify_password "pw" (.malformed "garbage") = .error "Invalid salt" :=
  ⟨claim_C5_amended.1 "sec" 100 50 { user_id := some "u1", exp := some 50 } rfl (by decide),
   claim_C5_amended.2.1 "sec" "zzz" 100,
   claim_C5_amended.2.2.1 "sec" "othersecret" 100 { user_id := some "u1" } (by decide),
   claim_C5_amended.2.2.2.1 "pw" 3 (bcryptDigest "pw") (by decide),
   claim_C5_amended.2.2.2.2 "pw" "garbage" (by decide)⟩

/-- Claim C6: a freshly issued access token for claims user_id and
email verifies successfully at every instant strictly before 30 minutes
after issuance, returning a payload that preserves those claims with
type access and exactly the freshly generated jti; once the 30 minutes
have elapsed, verification returns the None sentinel. -/
theorem claim_C6 (secret uid email uuid : String) (now t : Nat) :
    (t < now + minutes ACCESS_TOKEN_EXPIRE_MINUTES →
      AuthService.verify_token secret t
        (AuthService.create_access_token secret { user_id := some uid, email := some email }
          now none uuid)
      = .ok (some { user_id := some uid, email := some email,
                    exp := some (now + minutes ACCESS_TOKEN_EXPIRE_MINUTES),
                    type := some "access", jti := some uuid })) ∧
    (now + minutes ACCESS_TOKEN_EXPIRE_MINUTES ≤ t →
      AuthService.verify_token secret t
        (AuthService.create_access_token secret { user_id := some uid, email := some email }
          now none uuid)
      = .ok none) := by
  constructor
  · intro h
    have hn : ¬ (now + minutes ACCESS_TOKEN_EXPIRE_MINUTES ≤ t) := by omega
    simp [AuthService.verify_token, AuthService.create_access_token, jwtDecode, hn]
  · intro h
    simp [AuthService.verify_token, AuthService.create_access_token, jwtDecode, h]

/-- Witness for claim C6 at concrete inputs. -/
theorem claim_C6_witness :
    AuthService.verify_token "sec" 1000
      (AuthService.create_access_token "sec"
        { user_id := some "u1", email := some "a@x.com" } 1000 none "uuid-1")
      = .ok (some { user_id := some "u1", email := some "a@x.com",
                    exp := some (1000 + minutes ACCESS_TOKEN_EXPIRE_MINUTES),
                    type := some "access", jti := some "uuid-1" }) ∧
    AuthService.verify_token "sec" 2800
      (AuthService.create_access_token "sec"
        { user_id := some "u1", email := some "a@x.com" } 1000 none "uuid-1")
      = .ok none :=
  ⟨(claim_C6 "sec" "u1" "a@x.com" "uuid-1" 1000 1000).1 (by decide),
   (claim_C6 "sec" "u1" "a@x.com" "uuid-1" 1000 2800).2 (by decide)⟩

/-- Claim C7 counterexample: bcrypt digests only the first 72 bytes of
the password, so the two distinct 73-byte passwords that agree on their
first 72 bytes hash identically and verify interchangeably — the
program returns true, deterministically, for verify(p1, hash(p2)) with
p1 distinct from p2. A password containing a NUL byte makes hashing
raise instead of producing a hash at all. -/
theorem claim_C7_counterexample :
    AuthService.hash_password (String.mk (List.replicate 72 'a' ++ ['y'])) 1
      = .ok (.bcrypt 1 (List.replicate 72 97)) ∧
    AuthService.verify_password (String.mk (List.replicate 72 'a' ++ ['x']))
      (.bcrypt 1 (List.replicate 72 97)) = .ok true ∧
    String.mk (List.replicate 72 'a' ++ ['x']) ≠ String.mk (List.replicate 72 'a' ++ ['y']) ∧
    AuthService.hash_password "a\x00b" 1 = .error "password may not contain NUL bytes" := by
  refine ⟨rfl, rfl, by decide, rfl⟩

/-- Claim C7 amended: whenever hashing succeeds (the password has no
NUL byte), verifying that password against its own fresh hash returns
true; verifying a different password against the hash returns false
exactly when the two passwords differ within their first 72 UTF-8 bytes
(collision-free idealisation of the digest over those bytes), and true
when two passwords share their first 72 bytes (bcrypt truncation). -/
theorem claim_C7_amended :
    (∀ (p : String) (salt : Nat) (h : StoredHash),
      AuthService.hash_password p salt = .ok h →
      AuthService.verify_password p h = .ok true) ∧
    (∀ (p1 p2 : String) (salt : Nat) (h : StoredHash),
      (utf8Bytes p1).contains 0 = false →
      (utf8Bytes p1).take 72 ≠ (utf8Bytes p2).take 72 →
      AuthService.hash_password p2 salt = .ok h →
      AuthService.verify_password p1 h = .ok false) ∧
    (∀ (p1 p2 : String) (salt : Nat) (h : StoredHash),
      (utf8Bytes p1).contains 0 = false →
      (utf8Bytes p1).take 72 = (utf8Bytes p2).take 72 →
      AuthService.hash_password p2 salt = .ok h →
      AuthService.verify_password p1 h = .ok true) := by
  refine ⟨?_, ?_, ?_⟩
  · intro p salt h hOk
    simp only [AuthService.hash_password, bcryptHashpw] at hOk
    split at hOk
    · exact absurd hOk (by simp)
    · rename_i hz
      have hz2 : 0 ∉ utf8Bytes p := by simpa using hz
      cases hOk
      simp [AuthService.verify_password, bcryptCheckpw, hz2]
  · intro p1 p2 salt h hz hne hOk
    have hz2 : 0 ∉ utf8Bytes p1 := by simpa using hz
    simp only [AuthService.hash_password, bcryptHashpw] at hOk
    split at hOk
    · exact absurd hOk (by simp)
    · cases hOk
      have hd : bcryptDigest p2 ≠ bcryptDigest p1 := by
        simp only [bcryptDigest]
        exact fun hh => hne hh.symm
      simp [AuthService.verify_password, bcryptCheckpw, hz2, hd]
  · intro p1 p2 salt h hz heq hOk
    have hz2 : 0 ∉ utf8Bytes p1 := by simpa using hz
    simp only [AuthService.hash_password, bcryptHashpw] at hOk
    split at hOk
    · exact absurd hOk (by simp)
    · cases hOk
      have hd : bcryptDigest p2 = bcryptDigest p1 := by
        simp only [bcryptDigest]
        exact heq.symm
      simp [AuthService.verify_password, bcryptCheckpw, hz2, hd]

/-- Witness for the amended claim C7 at concrete inputs. -/
theorem claim_C7_amended_witness :
    AuthService.verify_password "secret123" (.bcrypt 5 (bcryptDigest "secret123"))
      = .ok true ∧
    AuthService.verify_password "wrongpass" (.bcrypt 5 (bcryptDigest "secret123"))
      = .ok false ∧
    AuthService.verify_password (String.mk (List.replicate 72 'a' ++ ['x']))
      (.bcrypt 1 (bcryptDigest (String.mk (List.replicate 72 'a' ++ ['y']))))
      = .ok true :=
  ⟨claim_C7_amended.1 "secret123" 5 (.bcrypt 5 (bcryptDigest "secret123")) rfl,
   claim_C7_amended.2.1 "wrongpass" "secret123" 5
     (.bcrypt 5 (bcryptDigest "secret123")) (by decide) (by decide) rfl,
   claim_C7_amended.2.2 (String.mk (List.replicate 72 'a' ++ ['x']))
     (String.mk (List.replicate 72 'a' ++ ['y'])) 1
     (.bcrypt 1 (bcryptDigest (String.mk (List.replicate 72 'a' ++ ['y']))))
     (by decide) (by decide) rfl⟩

/-- Claim C8 counterexample: the admin gate of the security router,
verify_admin_user, rejects an existing account whose role is
super_admin with 403 (it requires the role string to be exactly admin),
so it is not the case that every admin-gated code path admits
admin-or-super_admin and distinguishes not-found from forbidden. -/
theorem claim_C8_counterexample :
    SecurityRoutes.verify_admin_user
      [{ _id := "u1", email := "root@x.com", role := some "super_admin" }]
      { user_id := some "u1" }
      = .error ⟨403, "Admin privileges are required for this action."⟩ ∧
    SecurityRoutes.verify_admin_user [] { user_id := some "u1" }
      = .error ⟨403, "Admin privileges are required for this action."⟩ := ⟨rfl, rfl⟩

/-- Claim C8 amended: the admin router gate verify_admin_access behaves
as the claim states (404 when the account is absent, 403 unless the
role is admin or super_admin, the account otherwise); the security
router gate verify_admin_user instead answers 403 both when the account
is absent and whenever the role is not exactly admin, so a super_admin
account is rejected on that path. -/
theorem claim_C8_amended (users : UsersDb) (p : Payload) (uid : String)
    (hp : p.user_id = some uid) :
    (Database.find_user_by_id users uid = none →
      AdminRoutes.verify_admin_access users p = .error ⟨404, "User not found"⟩ ∧
      SecurityRoutes.verify_admin_user users p
        = .error ⟨403, "Admin privileges are required for this action."⟩) ∧
    (∀ u, Database.find_user_by_id users uid = some u →
      ((u.role.getD "user" = "admin" ∨ u.role.getD "user" = "super_admin") →
        AdminRoutes.verify_admin_access users p = .ok u) ∧
      (u.role.getD "user" ≠ "admin" → u.role.getD "user" ≠ "super_admin" →
        AdminRoutes.verify_admin_access users p = .error ⟨403, "Admin access required"⟩) ∧
      (u.role = some "admin" → SecurityRoutes.verify_admin_user users p = .ok u) ∧
      (u.role ≠ some "admin" →
        SecurityRoutes.verify_admin_user users p
          = .error ⟨403, "Admin privileges are required for this action."⟩)) := by
  constructor
  · intro hfind
    constructor
    · simp [AdminRoutes.verify_admin_access, hp, hfind]
    · simp [SecurityRoutes.verify_admin_user, hp, hfind]
  · intro u hfind
    refine ⟨?_, ?_, ?_, ?_⟩
    · rintro (h | h) <;> simp [AdminRoutes.verify_admin_access, hp, hfind, h]
    · intro h1 h2
      simp [AdminRoutes.verify_admin_access, hp, hfind, h1, h2]
    · intro h
      simp [SecurityRoutes.verify_admin_user, hp, hfind, h]
    · intro h
      simp [SecurityRoutes.verify_admin_user, hp, hfind, h]

/-- Witness for the amended claim C8 at concrete inputs. -/
theorem claim_C8_amended_witness :
    AdminRoutes.verify_admin_access
      [{ _id := "a1", email := "root@x.com", role := some "super_admin" }]
      { user_id := some "a1" }
      = .ok { _id := "a1", email := "root@x.com", role := some "super_admin" } ∧
    SecurityRoutes.verify_admin_user
      [{ _id := "a1", email := "root@x.com", role := some "super_admin" }]
      { user_id := some "a1" }
      = .error ⟨403, "Admin privileges are required for this action."⟩ ∧
    AdminRoutes.verify_admin_access [] { user_id := some "a1" }
      = .error ⟨404, "User not found"⟩ :=
  ⟨((claim_C8_amended
      [{ _id := "a1", email := "root@x.com", role := some "super_admin" }]
      { user_id := some "a1" } "a1" rfl).2
      { _id := "a1", email := "root@x.com", role := some "super_admin" } rfl).1
      (Or.inr (by decide)),
   ((claim_C8_amended
      [{ _id := "a1", email := "root@x.com", role := some "super_admin" }]
      { user_id := some "a1" } "a1" rfl).2
      { _id := "a1", email := "root@x.com", role := some "super_admin" } rfl).2.2.2
      (by decide),
   ((claim_C8_amended [] { user_id := some "a1" } "a1" rfl).1 rfl).1⟩

/-- Claim C9 counterexample: with an account already registered under
a@x.com, registering with A@x.com — the same email up to letter case,
differing in the local part, which EmailStr normalization preserves —
is not rejected: the exact-match duplicate check and the binary
unique index both miss it, and a second account is created whose email
equals the first one case-insensitively. -/
theorem claim_C9_counterexample :
    AuthRoutes.register
      [{ _id := "u1", email := "a@x.com",
         password := some (.bcrypt 1 (bcryptDigest "secret123")), name := "Alice" }]
      "sec" 100 "A@x.com" "pw123456" "Bob" "Basic" 2 "u2" "uuid2"
    = ([{ _id := "u1", email := "a@x.com",
          password := some (.bcrypt 1 (bcryptDigest "secret123")), name := "Alice" },
        { _id := "u2", email := "A@x.com",
          password := some (.bcrypt 2 (bcryptDigest "pw123456")), name := "Bob",
          subscription := "Basic", is_active := true }],
       .ok ⟨"u2",
            .signed { user_id := some "u2", email := some "A@x.com",
                      exp := some 1900, type := some "access",
                      jti := some "uuid2" } "sec",
            .signed { user_id := some "u2", email := some "A@x.com",
                      exp := some 604900, type := some "refresh" } "sec"⟩) ∧
    caseFold "A@x.com" = caseFold "a@x.com" ∧
    "A@x.com" ≠ "a@x.com" := ⟨rfl, by decide, by decide⟩

/-- Claim C9 amended: registration de-duplicates emails by exact match
after the pydantic EmailStr boundary normalization, which lowercases
only the domain part: an email whose normal form equals an existing
account email byte-for-byte (in particular one differing only in
domain-letter case) is rejected 400 already-registered with the
collection unchanged, while an email whose normal form is new —
including one differing from an existing email only in local-part
letter case — creates a second account and returns fresh tokens. -/
theorem claim_C9_amended (users : UsersDb) (secret : String) (now : Nat)
    (email password name sub : String) (salt : Nat) (new_id uuid : String) :
    (∀ u0, Database.find_user_by_email users (emailStrNormalize email) = some u0 →
      AuthRoutes.register users secret now email password name sub salt new_id uuid
        = (users, .error ⟨400, "Email already registered"⟩)) ∧
    (Database.find_user_by_email users (emailStrNormalize email) = none →
      ∀ hashed, AuthService.hash_password password salt = .ok hashed →
      AuthRoutes.register users secret now email password name sub salt new_id uuid
        = (users ++ [{ _id := new_id, email := emailStrNormalize email,
                       password := some hashed,
                       name := name, subscription := sub, is_active := true }],
           .ok ⟨new_id,
                AuthService.create_access_token secret
                  { user_id := some new_id, email := some (emailStrNormalize email) }
                  now none uuid,
                AuthService.create_refresh_token secret
                  { user_id := some new_id, email := some (emailStrNormalize email) }
                  now⟩)) := by
  constructor
  · intro u0 h
    simp [AuthRoutes.register, h]
  · intro h hashed hh
    have hany : users.any (fun u => u.email == emailStrNormalize email) = false := by
      rw [List.any_eq_false]
      intro x hx
      have hfind := List.find?_eq_none.mp h x hx
      simpa using hfind
    simp only [Database.find_user_by_email] at h
    simp [AuthRoutes.register, Database.find_user_by_email, Database.create_user,
          h, hh, hany]

/-- Witness for the amended claim C9 at concrete inputs: a submitted
address differing from a stored one only in domain case is normalized
to an exact duplicate and rejected, while a fresh address registers. -/
theorem claim_C9_amended_witness :
    AuthRoutes.register
      [{ _id := "u1", email := "a@x.com",
         password := some (.bcrypt 1 (bcryptDigest "secret123")), name := "Alice" }]
      "sec" 100 "a@X.com" "pw123456" "Bob" "Basic" 2 "u2" "uuid2"
      = ([{ _id := "u1", email := "a@x.com",
            password := some (.bcrypt 1 (bcryptDigest "secret123")), name := "Alice" }],
         .error ⟨400, "Email already registered"⟩) ∧
    AuthRoutes.register [] "sec" 100 "b@x.com" "pw123456" "Bob" "Basic" 2 "u2" "uuid2"
      = ([{ _id := "u2", email := emailStrNormalize "b@x.com",
            password := some (.bcrypt 2 (bcryptDigest "pw123456")),
            name := "Bob", subscription := "Basic", is_active := true }],
         .ok ⟨"u2",
              AuthService.create_access_token "sec"
                { user_id := some "u2", email := some (emailStrNormalize "b@x.com") }
                100 none "uuid2",
              AuthService.create_refresh_token "sec"
                { user_id := some "u2", email := some (emailStrNormalize "b@x.com") }
                100⟩) :=
  ⟨(claim_C9_amended
      [{ _id := "u1", email := "a@x.com",
         password := some (.bcrypt 1 (bcryptDigest "secret123")), name := "Alice" }]
      "sec" 100 "a@X.com" "pw123456" "Bob" "Basic" 2 "u2" "uuid2").1
      { _id := "u1", email := "a@x.com",
        password := some (.bcrypt 1 (bcryptDigest "secret123")), name := "Alice" }
      (by decide),
   (claim_C9_amended [] "sec" 100 "b@x.com" "pw123456" "Bob" "Basic" 2 "u2" "uuid2").2
      rfl (.bcrypt 2 (bcryptDigest "pw123456")) rfl⟩

/-- Claim C10: for every payload carrying a truthy jti, the logout
endpoint reports Successfully logged out even though the blacklist
write never succeeds — add_to_blacklist swallows its own error and
leaves the store unchanged — so the success response does not imply
that a revocation entry now exists for the jti. -/
theorem claim_C10 (s : BlacklistDb) (p : Payload) (now : Nat) (j : String)
    (hj : p.jti = some j) (hne : j ≠ "") :
    (AuthRoutes.logout s p now).2 = .ok "Successfully logged out" ∧
    (AuthRoutes.logout s p now).1 = s ∧
    (∀ (now2 : Nat) (q : String),
      Database.is_blacklisted (AuthRoutes.logout s p now).1 now2 q true
        = Database.is_blacklisted s now2 q true) := by
  refine ⟨?_, ?_, ?_⟩ <;>
    simp [AuthRoutes.logout, hj, hne, Database.add_to_blacklist]

/-- Witness for claim C10 at concrete inputs. -/
theorem claim_C10_witness :
    (AuthRoutes.logout [] { user_id := some "u1", jti := some "J" } 100).2
      = .ok "Successfully logged out" ∧
    (AuthRoutes.logout [] { user_id := some "u1", jti := some "J" } 100).1 = [] ∧
    Database.is_blacklisted
      (AuthRoutes.logout [] { user_id := some "u1", jti := some "J" } 100).1
      100 "J" true
      = Database.is_blacklisted [] 100 "J" true :=
  ⟨(claim_C10 [] { user_id := some "u1", jti := some "J" } 100 "J" rfl (by decide)).1,
   (claim_C10 [] { user_id := some "u1", jti := some "J" } 100 "J" rfl (by decide)).2.1,
   (claim_C10 [] { user_id := some "u1", jti := some "J" } 100 "J" rfl (by decide)).2.2 100 "J"⟩

end HydraSentinel
